import Mathlib

/-!
Verification of the allocator-benchmark harness
(`examples/07-custom-allocator/src/benchmark.cpp`).

The C++ source is shallowly embedded as follows:

* Wall-clock measurement is abstracted: each workload receives the number of
  nanoseconds `ns` that its `Timer` has measured when the workload returns
  (`high_resolution_clock` ticks in nanoseconds on the reference platform);
  `Timer::elapsed_ms` truncates to whole microseconds via
  `duration_cast<microseconds>` and divides the count by `1000.0`.
  Double values produced this way are modelled exactly as rationals.
* The process allocator (`malloc`) is modelled as an oracle
  `alloc : ℕ → Option ℕ` giving the result of the i-th allocation request of
  a workload: `some p` is a non-null pointer (an abstract id), `none` is a
  null return (allocation failure).
* Each workload returns, besides its `BenchmarkResult`, the trace data the
  C++ code produces: the pointer vector as built (`ptrs`), the sequence of
  pointers passed to `free` in order (`freed`), requested sizes, or an event
  trace for the reallocation workload.
* `ops_per_second` divides by `duration_ms` with no guard; an IEEE division
  of a finite value by zero yields ±∞ or NaN.  Doubles appearing in that
  computation are therefore modelled by `FpVal`: a finite rational (rounding
  abstracted) or a non-finite value.
-/

/-- Embeds `Timer::elapsed_ms` applied to an elapsed interval of `ns`
nanoseconds: `duration_cast<std::chrono::microseconds>` truncates the
interval to whole microseconds (`ns / 1000` in integer arithmetic), and the
resulting count is divided by `1000.0`. -/
def elapsed_ms_of_ns (ns : ℕ) : ℚ := ((ns / 1000 : ℕ) : ℚ) / 1000

/-- Embeds the `Timer` class: it stores the monotonic-clock reading (in
nanoseconds) captured at construction. -/
structure Timer where
  start_ns : ℕ

/-- Embeds `Timer::elapsed_ms()`: the interval from the stored start instant
to the current clock reading `now_ns`, truncated to microseconds and
converted to fractional milliseconds. -/
def Timer.elapsed_ms (t : Timer) (now_ns : ℕ) : ℚ :=
  elapsed_ms_of_ns (now_ns - t.start_ns)

/-- Embeds `struct BenchmarkResult` (name, duration in ms, operation count). -/
structure BenchmarkResult where
  name : String
  duration_ms : ℚ
  operations : ℕ
deriving DecidableEq

/-- A C++ `double` as it appears in the throughput computations: either a
finite value (modelled exactly as a rational, rounding abstracted) or a
non-finite IEEE value (±∞ or NaN, the possible results of dividing a finite
value by zero). -/
inductive FpVal where
  | finite (q : ℚ)
  | nonfinite
deriving DecidableEq

/-- IEEE-style division of the doubles arising here: a finite numerator over
a finite non-zero denominator is exact division; a finite numerator over zero
is ±∞ (numerator non-zero) or NaN (0/0), in either case non-finite; any
non-finite operand propagates. -/
def FpVal.div : FpVal → FpVal → FpVal
  | FpVal.finite a, FpVal.finite b => if b = 0 then FpVal.nonfinite else FpVal.finite (a / b)
  | _, _ => FpVal.nonfinite

/-- IEEE-style multiplication of the doubles arising here: finite × finite is
exact; a non-finite operand (±∞ or NaN multiplied by the non-zero literal
`1000.0`) stays non-finite. -/
def FpVal.mul : FpVal → FpVal → FpVal
  | FpVal.finite a, FpVal.finite b => FpVal.finite (a * b)
  | _, _ => FpVal.nonfinite

/-- Embeds `BenchmarkResult::ops_per_second`:
`(operations / duration_ms) * 1000.0`, computed unconditionally. -/
def BenchmarkResult.ops_per_second (r : BenchmarkResult) : FpVal :=
  FpVal.mul (FpVal.div (FpVal.finite (r.operations : ℚ)) (FpVal.finite r.duration_ms))
    (FpVal.finite 1000)

/-- Trace of one raw-allocation workload run: the pointer vector as built by
the allocation loop (`none` is a null return stored like any other element),
the pointers passed to `free` in order, and the returned record. -/
structure RawAllocRun where
  ptrs : List (Option ℕ)
  freed : List (Option ℕ)
  result : BenchmarkResult
deriving DecidableEq

/-- Embeds `benchmark_small_allocations`: `count` calls `malloc(64)` pushed
into `ptrs` unconditionally, then every element of `ptrs` is passed to `free`
in forward order; returns `{"Small allocations (64 bytes)", elapsed, count * 2}`. -/
def benchmark_small_allocations (count : ℕ) (alloc : ℕ → Option ℕ) (ns : ℕ) :
    RawAllocRun :=
  let ptrs := (List.range count).map alloc
  { ptrs := ptrs
    freed := ptrs
    result := ⟨"Small allocations (64 bytes)", elapsed_ms_of_ns ns, count * 2⟩ }

/-- Embeds `benchmark_medium_allocations`: as the small workload but with
`malloc(1024)`; returns `{"Medium allocations (1KB)", elapsed, count * 2}`. -/
def benchmark_medium_allocations (count : ℕ) (alloc : ℕ → Option ℕ) (ns : ℕ) :
    RawAllocRun :=
  let ptrs := (List.range count).map alloc
  { ptrs := ptrs
    freed := ptrs
    result := ⟨"Medium allocations (1KB)", elapsed_ms_of_ns ns, count * 2⟩ }

/-- Embeds `benchmark_large_allocations`: as the small workload but with
`malloc(1024 * 1024)`; returns `{"Large allocations (1MB)", elapsed, count * 2}`. -/
def benchmark_large_allocations (count : ℕ) (alloc : ℕ → Option ℕ) (ns : ℕ) :
    RawAllocRun :=
  let ptrs := (List.range count).map alloc
  { ptrs := ptrs
    freed := ptrs
    result := ⟨"Large allocations (1MB)", elapsed_ms_of_ns ns, count * 2⟩ }

/-- The fixed size table of `benchmark_mixed_sizes`:
`size_t sizes[] = {16, 32, 64, 128, 256, 512, 1024, 2048, 4096, 8192}`. -/
def mixed_sizes_table : List ℕ := [16, 32, 64, 128, 256, 512, 1024, 2048, 4096, 8192]

/-- Trace of one mixed-size workload run: the sizes requested in allocation
order, the pointer vector as built, the pointers passed to `free` in order,
and the returned record. -/
structure MixedRun where
  sizes : List ℕ
  ptrs : List (Option ℕ)
  freed : List (Option ℕ)
  result : BenchmarkResult
deriving DecidableEq

/-- Embeds `benchmark_mixed_sizes`: the i-th of `count` allocations requests
`sizes[i % 10]` bytes; the deallocation loop walks `ptrs` with reverse
iterators (`rbegin()`/`rend()`), so the pointers are freed in reverse order
of allocation; returns `{"Mixed size allocations", elapsed, count * 2}`. -/
def benchmark_mixed_sizes (count : ℕ) (alloc : ℕ → Option ℕ) (ns : ℕ) : MixedRun :=
  let ptrs := (List.range count).map alloc
  { sizes := (List.range count).map (fun i => mixed_sizes_table.getD (i % 10) 0)
    ptrs := ptrs
    freed := ptrs.reverse
    result := ⟨"Mixed size allocations", elapsed_ms_of_ns ns, count * 2⟩ }

/-- One allocator call of the reallocation workload. -/
inductive AllocEvent where
  | alloc (size : ℕ)
  | realloc (newSize : ℕ)
  | free
deriving DecidableEq

/-- Trace of one reallocation workload run: the sequence of allocator calls
in program order and the returned record. -/
structure ReallocRun where
  events : List AllocEvent
  result : BenchmarkResult
deriving DecidableEq

/-- Embeds `benchmark_reallocations`: one `malloc(64)`, then the loop
`for (i = 1; i < count; ++i)` calls `realloc(ptr, 64 * (i + 1))` — that is
`count - 1` resize steps at `i = 1, …, count - 1` (and none when
`count ≤ 1`) — then one `free(ptr)`; returns
`{"Reallocations", elapsed, count}`. -/
def benchmark_reallocations (count : ℕ) (ns : ℕ) : ReallocRun :=
  { events :=
      [AllocEvent.alloc 64]
        ++ ((List.range' 1 (count - 1)).map fun i => AllocEvent.realloc (64 * (i + 1)))
        ++ [AllocEvent.free]
    result := ⟨"Reallocations", elapsed_ms_of_ns ns, count⟩ }

/-- Trace of one string workload run: the strings as constructed and after
the mutation pass, and the returned record. -/
structure StringRun where
  strings : List String
  modified : List String
  result : BenchmarkResult
deriving DecidableEq

/-- Embeds `benchmark_string_operations`: `count` strings
`"This is a test string number " + to_string(i)` are constructed, each is
then appended with `" - modified"` (the extra `reserve` call does not change
the value); returns `{"String operations", elapsed, count * 3}`. -/
def benchmark_string_operations (count : ℕ) (ns : ℕ) : StringRun :=
  let strings := (List.range count).map (fun i => "This is a test string number " ++ toString i)
  { strings := strings
    modified := strings.map (fun s => s ++ " - modified")
    result := ⟨"String operations", elapsed_ms_of_ns ns, count * 3⟩ }

/-- Trace of one container-growth workload run: the grown vector's contents
and the returned record. -/
structure GrowthRun where
  vec : List ℤ
  result : BenchmarkResult
deriving DecidableEq

/-- Embeds `benchmark_container_growth`: `count` values
`static_cast<int>(i)` appended to an initially empty vector; returns
`{"Vector growth", elapsed, count}`. -/
def benchmark_container_growth (count : ℕ) (ns : ℕ) : GrowthRun :=
  { vec := (List.range count).map (fun i => (i : ℤ))
    result := ⟨"Vector growth", elapsed_ms_of_ns ns, count⟩ }

/-- Environment of one full benchmark run: the allocator oracle seen by each
raw-allocation/mixed workload and the nanoseconds elapsed on each of the
seven workload timers. -/
structure BenchEnv where
  allocSmall : ℕ → Option ℕ
  allocMedium : ℕ → Option ℕ
  allocLarge : ℕ → Option ℕ
  allocMixed : ℕ → Option ℕ
  ns : Fin 7 → ℕ

/-- The iteration constant of `run_benchmark`:
`const size_t iterations = 10000`. -/
def default_iterations : ℕ := 10000

/-- Embeds the collection phase of `run_benchmark`: the seven workloads are
invoked sequentially in the fixed order small, medium, large, mixed,
reallocations, strings, growth; all receive the configured iteration count
except the large-allocation workload, which receives `iterations / 10`
(integer division). -/
def run_benchmark (iterations : ℕ) (env : BenchEnv) : List BenchmarkResult :=
  [ (benchmark_small_allocations iterations env.allocSmall (env.ns 0)).result,
    (benchmark_medium_allocations iterations env.allocMedium (env.ns 1)).result,
    (benchmark_large_allocations (iterations / 10) env.allocLarge (env.ns 2)).result,
    (benchmark_mixed_sizes iterations env.allocMixed (env.ns 3)).result,
    (benchmark_reallocations iterations (env.ns 4)).result,
    (benchmark_string_operations iterations (env.ns 5)).result,
    (benchmark_container_growth iterations (env.ns 6)).result ]

/-- Embeds the `total_time` accumulation of `run_benchmark`:
`for (result : results) total_time += result.duration_ms`, starting from `0.0`. -/
def total_duration (rs : List BenchmarkResult) : ℚ :=
  rs.foldl (fun acc r => acc + r.duration_ms) 0

/-- Embeds the `total_ops` accumulation of `run_benchmark`:
`for (result : results) total_ops += result.operations`, starting from `0`. -/
def total_operations (rs : List BenchmarkResult) : ℕ :=
  rs.foldl (fun acc r => acc + r.operations) 0

/-- Embeds the overall-throughput expression printed by `run_benchmark`:
`(total_ops / total_time) * 1000.0`, computed unconditionally. -/
def overall_throughput (rs : List BenchmarkResult) : FpVal :=
  FpVal.mul
    (FpVal.div (FpVal.finite (total_operations rs : ℚ)) (FpVal.finite (total_duration rs)))
    (FpVal.finite 1000)

theorem elapsed_ms_of_ns_nonneg (ns : ℕ) : 0 ≤ elapsed_ms_of_ns ns := by
  unfold elapsed_ms_of_ns
  positivity

theorem foldl_duration_eq (rs : List BenchmarkResult) (a : ℚ) :
    rs.foldl (fun acc r => acc + r.duration_ms) a = a + (rs.map (fun r => r.duration_ms)).sum := by
  induction rs generalizing a with
  | nil => simp
  | cons r rs ih => simp [ih, add_assoc]

theorem foldl_operations_eq (rs : List BenchmarkResult) (a : ℕ) :
    rs.foldl (fun acc r => acc + r.operations) a = a + (rs.map (fun r => r.operations)).sum := by
  induction rs generalizing a with
  | nil => simp
  | cons r rs ih => simp [ih, add_assoc]

theorem total_duration_eq_sum (rs : List BenchmarkResult) :
    total_duration rs = (rs.map (fun r => r.duration_ms)).sum := by
  unfold total_duration
  rw [foldl_duration_eq, zero_add]

theorem total_operations_eq_sum (rs : List BenchmarkResult) :
    total_operations rs = (rs.map (fun r => r.operations)).sum := by
  unfold total_operations
  rw [foldl_operations_eq, Nat.zero_add]

/-- Claim C1 counterexample: the claim states `ops_per_second` equals `0`
when `duration_ms == 0`, but `BenchmarkResult::ops_per_second` divides by
`duration_ms` unconditionally, so a result with zero duration and one
operation yields a non-finite value, not `0`. -/
theorem ops_per_second_zero_duration_counterexample :
    ¬ ((⟨"Reallocations", 0, 1⟩ : BenchmarkResult).ops_per_second = FpVal.finite 0) := by
  decide

/-- Claim C1 (amended): for every `BenchmarkResult`, `ops_per_second` equals
`operations / duration_ms * 1000` when `duration_ms > 0`; when
`duration_ms == 0` the division is performed anyway (there is no
zero-duration guard) and the result is non-finite (±∞ or NaN), never `0`. -/
theorem ops_per_second_formula (r : BenchmarkResult) :
    (0 < r.duration_ms →
      r.ops_per_second = FpVal.finite ((r.operations : ℚ) / r.duration_ms * 1000)) ∧
    (r.duration_ms = 0 → r.ops_per_second = FpVal.nonfinite) := by
  constructor
  · intro h
    simp [BenchmarkResult.ops_per_second, FpVal.div, FpVal.mul, ne_of_gt h]
  · intro h
    simp [BenchmarkResult.ops_per_second, FpVal.div, FpVal.mul, h]

/-- Witness for claim C1: a concrete result with duration `2` ms and `10`
operations reports `5000` ops per second. -/
theorem ops_per_second_formula_witness :
    (⟨"Reallocations", 2, 10⟩ : BenchmarkResult).ops_per_second = FpVal.finite 5000 := by
  have h := (ops_per_second_formula ⟨"Reallocations", 2, 10⟩).1 (by norm_num)
  rw [h]
  norm_num

/-- Claim C2 counterexample: when the single allocation request of a
one-iteration small-allocation run returns null, the claim states the null
pointer is excluded from the deallocation pass and the failed request is not
counted, but the code passes the null to `free` and still reports
`2` operations. -/
theorem raw_alloc_null_counterexample :
    ¬ (none ∉ (benchmark_small_allocations 1 (fun _ => none) 0).freed ∧
        (benchmark_small_allocations 1 (fun _ => none) 0).result.operations = 0) := by
  decide

/-- Claim C2 (amended): in the raw-allocation workloads every allocation
result — a null return included — is stored in the pointer vector and passed
to `free` in the deallocation pass (well-defined, since `free(nullptr)` is a
no-op); the workload completes all `count` requests and reports
`operations = count * 2` regardless of failures. -/
theorem raw_alloc_null_handling (count : ℕ) (alloc : ℕ → Option ℕ) (ns : ℕ) :
    ((benchmark_small_allocations count alloc ns).ptrs.length = count ∧
      (benchmark_small_allocations count alloc ns).freed =
        (benchmark_small_allocations count alloc ns).ptrs ∧
      (benchmark_small_allocations count alloc ns).result.operations = count * 2) ∧
    ((benchmark_medium_allocations count alloc ns).ptrs.length = count ∧
      (benchmark_medium_allocations count alloc ns).freed =
        (benchmark_medium_allocations count alloc ns).ptrs ∧
      (benchmark_medium_allocations count alloc ns).result.operations = count * 2) ∧
    ((benchmark_large_allocations count alloc ns).ptrs.length = count ∧
      (benchmark_large_allocations count alloc ns).freed =
        (benchmark_large_allocations count alloc ns).ptrs ∧
      (benchmark_large_allocations count alloc ns).result.operations = count * 2) := by
  refine ⟨⟨?_, rfl, rfl⟩, ⟨?_, rfl, rfl⟩, ⟨?_, rfl, rfl⟩⟩ <;>
    simp [benchmark_small_allocations, benchmark_medium_allocations,
      benchmark_large_allocations]

/-- Claim C5 counterexample: the claim states the overall throughput is `0`
when `total_duration == 0`, but the code computes
`(total_ops / total_time) * 1000.0` unconditionally, so a run whose only
result has zero duration yields a non-finite value, not `0`. -/
theorem overall_throughput_zero_counterexample :
    total_duration [(⟨"Vector growth", 0, 5⟩ : BenchmarkResult)] = 0 ∧
    ¬ (overall_throughput [(⟨"Vector growth", 0, 5⟩ : BenchmarkResult)] =
        FpVal.finite 0) := by
  have hd : total_duration [(⟨"Vector growth", 0, 5⟩ : BenchmarkResult)] = 0 := by
    simp [total_duration]
  refine ⟨hd, ?_⟩
  simp [overall_throughput, hd, FpVal.div, FpVal.mul]

/-- Claim C5 (amended): the Reporter computes `total_duration` as the sum of
the results' `duration_ms` and `total_operations` as the sum of their
`operations`; the overall throughput is
`total_operations / total_duration * 1000`, computed — like the per-workload
`ops_per_second` — with no zero-duration guard, so it is non-finite (not `0`)
when `total_duration == 0`. -/
theorem reporter_totals (rs : List BenchmarkResult) :
    total_duration rs = (rs.map (fun r => r.duration_ms)).sum ∧
    total_operations rs = (rs.map (fun r => r.operations)).sum ∧
    (0 < total_duration rs →
      overall_throughput rs =
        FpVal.finite ((total_operations rs : ℚ) / total_duration rs * 1000)) ∧
    (total_duration rs = 0 → overall_throughput rs = FpVal.nonfinite) := by
  refine ⟨total_duration_eq_sum rs, total_operations_eq_sum rs, ?_, ?_⟩
  · intro h
    simp [overall_throughput, FpVal.div, FpVal.mul, ne_of_gt h]
  · intro h
    simp [overall_throughput, FpVal.div, FpVal.mul, h]

/-- Witness for claim C5: a run with a single result of duration `1` ms and
`5` operations has overall throughput `5000` ops per second. -/
theorem reporter_totals_witness :
    overall_throughput [(⟨"Vector growth", 1, 5⟩ : BenchmarkResult)] =
      FpVal.finite 5000 := by
  have h := (reporter_totals [⟨"Vector growth", 1, 5⟩]).2.2.1 (by norm_num [total_duration])
  rw [h]
  norm_num [total_operations, total_duration]

/-- Claim C3: a full run with the configured default iteration count
`10000` (so `10000 / 10 = 1000` for the large-allocation workload) yields
exactly seven results, in the fixed order small, medium, large, mixed,
reallocations, strings, growth, each with non-negative `duration_ms`, and
with `operations` exactly `20000, 20000, 2000, 20000, 10000, 30000, 10000`. -/
theorem run_benchmark_default_run (env : BenchEnv) :
    (run_benchmark default_iterations env).length = 7 ∧
    (run_benchmark default_iterations env).map (fun r => r.name) =
      ["Small allocations (64 bytes)", "Medium allocations (1KB)",
       "Large allocations (1MB)", "Mixed size allocations",
       "Reallocations", "String operations", "Vector growth"] ∧
    (run_benchmark default_iterations env).map (fun r => r.operations) =
      [20000, 20000, 2000, 20000, 10000, 30000, 10000] ∧
    ∀ r ∈ run_benchmark default_iterations env, 0 ≤ r.duration_ms := by
  refine ⟨rfl, rfl, rfl, ?_⟩
  intro r hr
  simp only [run_benchmark, List.mem_cons, List.not_mem_nil, or_false] at hr
  rcases hr with h | h | h | h | h | h | h <;> subst h <;>
    exact elapsed_ms_of_ns_nonneg _

/-- Witness for claim C3: in a concrete environment the first result of the
default run has non-negative duration. -/
theorem run_benchmark_default_run_witness :
    0 ≤ ((benchmark_small_allocations default_iterations (fun _ => some 0)
        ((fun _ => 0 : Fin 7 → ℕ) 0)).result).duration_ms :=
  (run_benchmark_default_run
      ⟨fun _ => some 0, fun _ => some 0, fun _ => some 0, fun _ => some 0, fun _ => 0⟩).2.2.2
    _ (by simp [run_benchmark])

/-- Claim C4: for every iteration count `N`, each workload reports
`operations` per its documented formula: `2N` for small, medium and mixed
allocations, twice its own iteration count for large allocations, `N` for
reallocations, `3N` for string operations, and `N` for container growth. -/
theorem workload_operations_formula (N : ℕ) (alloc : ℕ → Option ℕ) (ns : ℕ) :
    (benchmark_small_allocations N alloc ns).result.operations = 2 * N ∧
    (benchmark_medium_allocations N alloc ns).result.operations = 2 * N ∧
    (benchmark_large_allocations N alloc ns).result.operations = 2 * N ∧
    (benchmark_mixed_sizes N alloc ns).result.operations = 2 * N ∧
    (benchmark_reallocations N ns).result.operations = N ∧
    (benchmark_string_operations N ns).result.operations = 3 * N ∧
    (benchmark_container_growth N ns).result.operations = N := by
  refine ⟨?_, ?_, ?_, ?_, rfl, ?_, rfl⟩ <;>
    simp [benchmark_small_allocations, benchmark_medium_allocations,
      benchmark_large_allocations, benchmark_mixed_sizes,
      benchmark_string_operations, Nat.mul_comm]

/-- Claim C6: for every iteration count `N`, the mixed-size workload
performs `N` allocations whose requested sizes cycle through the fixed table
`{16, 32, 64, 128, 256, 512, 1024, 2048, 4096, 8192}` by index `i mod 10`,
and frees the allocated pointers in exactly the reverse of allocation order
(last-allocated freed first). -/
theorem mixed_sizes_cycle_and_reverse_free (N : ℕ) (alloc : ℕ → Option ℕ) (ns : ℕ) :
    (benchmark_mixed_sizes N alloc ns).sizes.length = N ∧
    (∀ i, i < N →
      (benchmark_mixed_sizes N alloc ns).sizes.getD i 0 =
        mixed_sizes_table.getD (i % 10) 0) ∧
    (benchmark_mixed_sizes N alloc ns).ptrs.length = N ∧
    (benchmark_mixed_sizes N alloc ns).freed =
      (benchmark_mixed_sizes N alloc ns).ptrs.reverse ∧
    (benchmark_mixed_sizes N alloc ns).freed.head? =
      (benchmark_mixed_sizes N alloc ns).ptrs.getLast? := by
  refine ⟨?_, ?_, ?_, rfl, ?_⟩
  · simp [benchmark_mixed_sizes]
  · intro i hi
    simp [benchmark_mixed_sizes, List.getD_eq_getElem?_getD, List.getElem?_map,
      List.getElem?_range, hi]
  · simp [benchmark_mixed_sizes]
  · simp [benchmark_mixed_sizes, List.head?_reverse]

/-- Witness for claim C6: with `N = 12` the twelfth allocation (index 11)
requests `sizes[11 mod 10] = sizes[1] = 32` bytes. -/
theorem mixed_sizes_cycle_witness :
    (benchmark_mixed_sizes 12 some 0).sizes.getD 11 0 = 32 := by
  have h := (mixed_sizes_cycle_and_reverse_free 12 some 0).2.1 11 (by norm_num)
  rw [h]
  rfl

/-- Claim C7: for every configured base iteration count `N`, the run invokes
the large-allocation workload with exactly `N / 10` iterations while every
other workload runs with `N` iterations — visible through each result's
operation count: the large row reports `2 * (N / 10)` operations while the
others report their formulas at `N`. -/
theorem run_benchmark_iteration_scaling (N : ℕ) (env : BenchEnv) :
    (run_benchmark N env).map (fun r => r.operations) =
      [2 * N, 2 * N, 2 * (N / 10), 2 * N, N, 3 * N, N] ∧
    (run_benchmark N env).map (fun r => r.name) =
      ["Small allocations (64 bytes)", "Medium allocations (1KB)",
       "Large allocations (1MB)", "Mixed size allocations",
       "Reallocations", "String operations", "Vector growth"] := by
  refine ⟨?_, rfl⟩
  simp [run_benchmark, benchmark_small_allocations, benchmark_medium_allocations,
    benchmark_large_allocations, benchmark_mixed_sizes, benchmark_reallocations,
    benchmark_string_operations, benchmark_container_growth, Nat.mul_comm]

/-- Claim C8: the reallocation workload invoked with `N = 1` performs zero
resize steps (`realloc` is never called), reports `operations = 1`, and
frees its single initial allocation exactly once. -/
theorem reallocations_single_iteration (ns : ℕ) :
    (benchmark_reallocations 1 ns).events = [AllocEvent.alloc 64, AllocEvent.free] ∧
    ((benchmark_reallocations 1 ns).events.filter
        (fun e => match e with | AllocEvent.realloc _ => true | _ => false)) = [] ∧
    (benchmark_reallocations 1 ns).events.count AllocEvent.free = 1 ∧
    (benchmark_reallocations 1 ns).result.operations = 1 :=
  ⟨rfl, rfl, rfl, rfl⟩

/-- Claim C9: the reallocation workload invoked with `N = 0` still performs
one 64-byte allocation immediately followed by one free (the `malloc` and
`free` sit outside the loop), yet reports `operations = 0`. -/
theorem reallocations_zero_iterations (ns : ℕ) :
    (benchmark_reallocations 0 ns).events = [AllocEvent.alloc 64, AllocEvent.free] ∧
    (benchmark_reallocations 0 ns).result.operations = 0 :=
  ⟨rfl, rfl⟩

/-- Claim C10: `Timer::elapsed_ms` truncates the elapsed interval to whole
microseconds before converting to milliseconds, so every reported duration
is a non-negative integer multiple of `0.001` ms, and an interval of less
than one microsecond reports exactly `0`. -/
theorem elapsed_ms_truncation (t : Timer) (now_ns : ℕ) :
    0 ≤ t.elapsed_ms now_ns ∧
    (∃ k : ℕ, t.elapsed_ms now_ns = (k : ℚ) / 1000) ∧
    (now_ns - t.start_ns < 1000 → t.elapsed_ms now_ns = 0) := by
  refine ⟨elapsed_ms_of_ns_nonneg _, ⟨(now_ns - t.start_ns) / 1000, rfl⟩, ?_⟩
  intro h
  unfold Timer.elapsed_ms elapsed_ms_of_ns
  rw [Nat.div_eq_of_lt h]
  norm_num

/-- Witness for claim C10: a timer started at tick 5 and read at tick 900
(an interval of 895 ns, under one microsecond) reports `0` ms. -/
theorem elapsed_ms_truncation_witness : (Timer.mk 5).elapsed_ms 900 = 0 :=
  (elapsed_ms_truncation ⟨5⟩ 900).2.2 (by norm_num)
